import Mathlib

/-!
Shallow embedding of the download-acquisition core of the audiobook-manager
repository (services/download_manager.py and services/file_manager.py),
together with theorems settling the specification claims about it.

Strings are modelled by Lean `String` / `List Char`; Python floats (progress
fractions, epoch timestamps) are modelled by `Rat`; Python `None` by `Option`.
-/

/-- Python whitespace class `\s` restricted to ASCII, as used by the
`re` patterns in `file_manager.py`. -/
def pySpace (c : Char) : Bool :=
  c = ' ' || c = '\t' || c = '\n' || c = '\r' || c = '\x0b' || c = '\x0c'

/-- Characters matched by the character class `[<>:"/\\|?*]` in
`FileManager._make_filesystem_safe`. -/
def badChar (c : Char) : Bool :=
  c = '<' || c = '>' || c = ':' || c = '"' || c = '/' || c = '\\' ||
  c = '|' || c = '?' || c = '*'

/-- Model of Python `re.sub` with a single-character class pattern:
every character matched by `p` is replaced by `r`. -/
def reSubChars (p : Char → Bool) (r : Char) (cs : List Char) : List Char :=
  cs.map (fun c => if p c then r else c)

/-- Model of Python `str.strip(chars)`: remove from both ends every
character satisfying `p`. -/
def pyStrip (p : Char → Bool) (cs : List Char) : List Char :=
  ((cs.dropWhile p).reverse.dropWhile p).reverse

/-- `FileManager._make_filesystem_safe`: substitute `'_'` for each character
of the class `[<>:"/\\|?*]`, strip leading/trailing `'.'` and `' '`,
then truncate to the first 100 characters. -/
def make_filesystem_safe (name : String) : String :=
  let safe := reSubChars badChar '_' name.data
  let trimmed := pyStrip (fun c => c = '.' || c = ' ') safe
  String.mk (trimmed.take 100)

/-- The sanitizer as the claim words it: the characters `<>:"/\\|?*` are
REMOVED (not replaced), then leading/trailing dots and spaces are trimmed and
the result is capped at 100 characters. -/
def sanitizeRemoveClaim (name : String) : String :=
  String.mk ((pyStrip (fun c => c = '.' || c = ' ')
    (name.data.filter (fun c => !badChar c))).take 100)

/-- Trimming of a trailing run of characters satisfying `p`, written as a
direct structural recursion (used to restate the sanitizer's trimming step). -/
def trimTrailing (p : Char → Bool) : List Char → List Char
  | [] => []
  | c :: cs =>
    match trimTrailing p cs with
    | [] => if p c then [] else [c]
    | r => c :: r

/-- Decidable check that `a` occurs at the start of `b`. -/
def listIsPrefixOf : List Char → List Char → Bool
  | [], _ => true
  | _ :: _, [] => false
  | a :: as, b :: bs => a = b && listIsPrefixOf as bs

/-- Decidable check that `pat` occurs as a contiguous run inside `hay`;
models the Python substring operator `in`. -/
def listIsInfixOf (pat hay : List Char) : Bool :=
  match hay with
  | [] => pat.isEmpty
  | _ :: t => listIsPrefixOf pat hay || listIsInfixOf pat t

/-- Python `pat in hay` on strings. -/
def strContains (hay pat : String) : Bool :=
  listIsInfixOf pat.data hay.data

/-- Python `str.lower()` (ASCII case folding suffices for the embedded data). -/
def lowerStr (s : String) : String :=
  String.mk (s.data.map Char.toLower)

/-- Root part of Python `os.path.splitext` for a bare file name: leading dots
belong to the root; the split happens at the last later dot, if any. -/
def splitextRoot (cs : List Char) : List Char :=
  let lead := cs.takeWhile (fun c => c = '.')
  let rest := cs.drop lead.length
  let tail := rest.reverse.takeWhile (fun c => c != '.')
  if tail.length = rest.length then cs
  else lead ++ rest.take (rest.length - tail.length - 1)

/-- One candidate split position for the pattern `^(.*?)\s+by\s+(.*)$` with
`re.IGNORECASE` (`file_manager.py` line 30): at position `i` the string must
continue with a nonempty whitespace run, `by` (any case), a nonempty
whitespace run, and the rest becomes group 2. -/
def tryByAt (cs : List Char) (i : Nat) : Option (List Char × List Char) :=
  let t := cs.take i
  let r := cs.drop i
  let w1 := (r.takeWhile pySpace).length
  if w1 = 0 then none
  else
    match r.drop w1 with
    | b :: y :: r2 =>
      if (b = 'b' || b = 'B') && (y = 'y' || y = 'Y') then
        let w2 := (r2.takeWhile pySpace).length
        if w2 = 0 then none else some (t, r2.drop w2)
      else none
    | _ => none

/-- `re.search(r'^(.*?)\s+by\s+(.*)$', name, re.IGNORECASE)`: the lazy first
group makes the leftmost feasible split win. Returns `(title, author)`. -/
def byMatch (cs : List Char) : Option (List Char × List Char) :=
  (List.range (cs.length + 1)).findSome? (tryByAt cs)

/-- One candidate split position for `^(.*?)\s*\[(.*)\]$`: at position `i`
the string continues with optional whitespace then `'['`; the greedy second
group then requires the final character of the whole name to be `']'` and
captures everything in between. -/
def tryBracketAt (cs : List Char) (i : Nat) : Option (List Char × List Char) :=
  let t := cs.take i
  let r := cs.drop i
  let w := (r.takeWhile pySpace).length
  match r.drop w with
  | '[' :: rest =>
    match rest.reverse with
    | ']' :: mid => some (t, mid.reverse)
    | _ => none
  | _ => none

/-- `re.search(r'^(.*?)\s*\[(.*)\]$', name)`. Returns `(title, author)`. -/
def bracketMatch (cs : List Char) : Option (List Char × List Char) :=
  (List.range (cs.length + 1)).findSome? (tryBracketAt cs)

/-- The dash-like separator class `[-–—]` of the dash pattern. -/
def dashChar (c : Char) : Bool := c = '-' || c = '–' || c = '—'

/-- One candidate split position for `^(.+?)\s*[-–—]{1,}\s*(.+)$`: nonempty
lazy first group, optional whitespace, a greedy dash run, optional whitespace,
and a nonempty rest; the regex backtracker gives up one trailing whitespace
character (or one dash) when the final group would otherwise be empty. -/
def tryDashAt (cs : List Char) (i : Nat) : Option (List Char × List Char) :=
  if i = 0 then none
  else
    let t := cs.take i
    let r := cs.drop i
    let w := (r.takeWhile pySpace).length
    let r1 := r.drop w
    let d := (r1.takeWhile dashChar).length
    if d = 0 then none
    else
      let rest2 := r1.drop d
      if rest2.isEmpty then
        if 2 ≤ d then some (t, r1.drop (d - 1)) else none
      else
        let w2 := (rest2.takeWhile pySpace).length
        let rem := rest2.drop w2
        if rem.isEmpty then some (t, rest2.drop (w2 - 1)) else some (t, rem)

/-- `re.search(r'^(.+?)\s*[-–—]{1,}\s*(.+)$', name)`. Returns
`(author_candidate, title_candidate)`. -/
def dashMatch (cs : List Char) : Option (List Char × List Char) :=
  (List.range (cs.length + 1)).findSome? (tryDashAt cs)

/-- Result shape of `FileManager.extract_metadata_from_filename`. -/
structure Metadata where
  author : String
  title : String
deriving DecidableEq, Repr

/-- Python `str.strip()` (no arguments): strip whitespace from both ends. -/
def stripWs (cs : List Char) : List Char := pyStrip pySpace cs

/-- Python `str.strip('.')`. -/
def stripDots (cs : List Char) : List Char := pyStrip (fun c => c = '.') cs

/-- `FileManager.extract_metadata_from_filename`: drop the extension, then try
the `by` pattern, the bracket pattern and the validated dash pattern in order,
falling back to `author = "Unknown Author"`, `title = name` with a final
whitespace-then-dot strip applied only on the fallback path. -/
def extract_metadata_from_filename (filename : String) : Metadata :=
  let name := splitextRoot filename.data
  match byMatch name with
  | some (t, a) => ⟨String.mk (stripWs a), String.mk (stripWs t)⟩
  | none =>
    match bracketMatch name with
    | some (t, a) => ⟨String.mk (stripWs a), String.mk (stripWs t)⟩
    | none =>
      let fallback : Metadata :=
        ⟨String.mk (stripDots (stripWs "Unknown Author".data)),
         String.mk (stripDots (stripWs name))⟩
      match dashMatch name with
      | some (a, t) =>
        let ac := stripWs a
        let tc := stripWs t
        if 2 < ac.length && 2 < tc.length then ⟨String.mk ac, String.mk tc⟩
        else fallback
      | none => fallback


/-! ## Data model of the orchestrator -/

/-- A qBittorrent transfer snapshot as consumed by
`DownloadManager._monitor_download` (dict fields accessed via `.get`).
`tags` is the comma-separated tags string reported by the daemon. -/
structure Torrent where
  hash : Option String
  name : String
  tags : String
  progress : Rat
  state : String
  addedOn : Rat
  contentPath : Option String
  savePath : Option String
deriving DecidableEq, Repr

/-- The mutable `DownloadJob` row fields touched by the orchestrator
(`models.py`).  Timestamps are epoch seconds. -/
structure Job where
  id : Nat
  searchResultId : Nat
  torrentHash : Option String
  status : String
  progress : Rat
  downloadPath : Option String
  createdAt : Option Rat
  completedAt : Option Rat
  errorMessage : Option String
deriving DecidableEq, Repr

/-- Python truthiness of a nullable string: `None` and `""` are falsy. -/
def truthyOpt (o : Option String) : Bool :=
  match o with
  | none => false
  | some s => s ≠ ""

/-- `download_job.created_at.timestamp() if download_job.created_at else 0`. -/
def jobCreated (job : Job) : Rat := job.createdAt.getD 0

/-! ## Identity matcher (monitor loop, strategies 1 and 2) -/

/-- Strategy-2 predicate: the lowercased torrent name contains the lowercased
search title, and the torrent's `added_on` is within 300 seconds of the job's
creation timestamp (`abs(torrent_added - job_created) < 300`). -/
def fuzzyPred (searchTitle : String) (jobCreatedTs : Rat) (t : Torrent) : Bool :=
  strContains (lowerStr t.name) (lowerStr searchTitle) &&
    decide (|t.addedOn - jobCreatedTs| < (300 : Rat))

/-- The torrent-matching block of `_monitor_download` (lines 148-172):
first the torrent whose tags string contains the job tag as a substring;
failing that, the first torrent satisfying the fuzzy name/time predicate. -/
def findMatchingTorrent (targetTag searchTitle : String) (jobCreatedTs : Rat)
    (torrents : List Torrent) : Option Torrent :=
  match torrents.find? (fun t => strContains t.tags targetTag) with
  | some t => some t
  | none => torrents.find? (fuzzyPred searchTitle jobCreatedTs)

/-- The comma-separated tag list encoded in a snapshot's tags string; used to
express the claim's notion of "the tag set contains the job-unique tag". -/
def splitOnComma : List Char → List (List Char)
  | [] => [[]]
  | c :: cs =>
    let r := splitOnComma cs
    if c = ',' then [] :: r
    else
      match r with
      | h :: t => (c :: h) :: t
      | [] => [[c]]

/-- Membership of `tag` in the tag set of a tags string (claim-level reading
of strategy 1, as opposed to the code's raw substring test). -/
def tagSetContains (tags tag : String) : Bool :=
  (splitOnComma tags.data).any (fun x => x = tag.data)

/-! ## One monitoring tick -/

/-- `os.path.join` for the two components joined at line 206. -/
def pathJoin (a b : String) : String :=
  if listIsPrefixOf ['/'] b.data then b
  else if a.data.isEmpty then b
  else if a.data.getLast? = some '/' then a ++ b
  else a ++ "/" ++ b

/-- The claim's path-resolution rule: prefer the adapter-reported content
path of the snapshot, otherwise the download root joined with the name. -/
def resolveOutputPathClaim (downloadRoot : String) (t : Torrent) : String :=
  match t.contentPath with
  | some p => p
  | none => pathJoin downloadRoot t.name

/-- Torrent states treated as terminal errors at line 229. -/
def badState (s : String) : Bool :=
  s = "error" || s = "missingFiles" || s = "pausedUP" || s = "unknown"

/-- Statuses on which the monitor loop stops at line 140. -/
def monitorTerminal (s : String) : Bool :=
  s = "cancelled" || s = "completed" || s = "failed"

/-- Lines 178-181: assign the matched torrent's hash only while the job's
`torrent_hash` is still falsy. -/
def bindHash (t : Torrent) (job : Job) : Job :=
  if truthyOpt job.torrentHash then job else { job with torrentHash := t.hash }

/-- The matched-torrent part of a monitoring tick (lines 174-237): bind the
torrent hash if the job's hash is still falsy, overwrite `progress` with
100 times the snapshot fraction, then branch on completion (`>= 99.9`),
terminal-error torrent state, or plain `downloading`.  The completion branch
records the resolved download path (download root joined with the torrent
name) and enters `processing`; running the completion pipeline itself is
modelled separately. -/
def tickMatched (downloadRoot : String) (t : Torrent) (job : Job) : Job :=
  if t.progress * 100 ≥ (999 : Rat) / 10 then
    { bindHash t job with
        progress := t.progress * 100,
        downloadPath := some (pathJoin downloadRoot t.name),
        status := "processing" }
  else if badState t.state then
    { bindHash t job with
        progress := t.progress * 100,
        status := "failed",
        errorMessage := some ("Torrent state: " ++ t.state) }
  else
    { bindHash t job with
        progress := t.progress * 100,
        status := "downloading" }

/-- The job-state effect of one iteration of the monitoring loop
(lines 140-251), excluding the completion pipeline: stop untouched on a
terminal status; on a match apply `tickMatched`; with no match fail with the
timeout message once more than 120 attempts have elapsed. -/
def monitorTick (downloadRoot targetTag searchTitle : String)
    (torrents : List Torrent) (attempts : Nat) (job : Job) : Job :=
  if monitorTerminal job.status then job
  else
    match findMatchingTorrent targetTag searchTitle (jobCreated job) torrents with
    | some t => tickMatched downloadRoot t job
    | none =>
      if 120 < attempts then
        { job with status := "failed",
                   errorMessage := some "Torrent not found in qBittorrent after timeout" }
      else job

/-! ## Completion pipeline -/

/-- An Audiobookshelf library record as consumed by
`_process_completed_download` (`library['id']`, optional `name`). -/
structure Library where
  id : String
  name : Option String
deriving DecidableEq, Repr

/-- The external outcomes the completion pipeline depends on: whether
`organize_downloaded_audiobook` returned a result, the library list returned
by `get_libraries`, and the per-library result of `scan_library`. -/
structure ProcessEnv where
  organizeOk : Bool
  libraries : List Library
  scanOk : String → Bool

/-- Observable outcome of `_process_completed_download`: the job after the
method, the `scan_library` calls it made (id, reported success), and whether
`FileManager.cleanup_download` was invoked on the transfer-location files
(the method body contains no such call, so this is constantly `false`). -/
structure ProcessResult where
  job : Job
  scanCalls : List (String × Bool)
  cleanupCalled : Bool

/-- `DownloadManager._process_completed_download` (lines 273-318): set
`processing`; on organizer failure fail; otherwise, when the library list is
nonempty, trigger a scan per library (ignoring every scan result) and mark
`completed` with a completion timestamp, else mark `completed_with_warning`
with an explanatory message.  The transfer-location files are not cleaned up
on any path. -/
def process_completed_download (env : ProcessEnv) (now : Rat) (job : Job) :
    ProcessResult :=
  let j0 := { job with status := "processing" }
  if !env.organizeOk then
    ⟨{ j0 with status := "failed",
               errorMessage := some "Failed to organize downloaded files" }, [], false⟩
  else if env.libraries.isEmpty then
    ⟨{ j0 with status := "completed_with_warning",
               errorMessage :=
                 some "Download completed but could not trigger Audiobookshelf scan" },
     [], false⟩
  else
    ⟨{ j0 with status := "completed", completedAt := some now },
     env.libraries.map (fun l => (l.id, env.scanOk l.id)), false⟩

/-- The completion-status rule as the claim words it: `completed` exactly when
at least one library exists and at least one scan call succeeds, else
`completed_with_warning`. -/
def completionStatusClaim (libraries : List Library) (scanOk : String → Bool) :
    String :=
  if !libraries.isEmpty && libraries.any (fun l => scanOk l.id) then "completed"
  else "completed_with_warning"

/-! ## Cancellation -/

/-- Result of `DownloadManager.cancel_download`: the returned boolean and the
job row afterwards. -/
structure CancelResult where
  success : Bool
  job : Job
deriving Repr

/-- `DownloadManager.cancel_download` (lines 396-431), with the adapter's
`delete_torrent` outcome supplied as `adapterDeleteOk`: succeed immediately on
status `completed`/`failed`/`cancelled`; otherwise, with a truthy torrent
hash, cancel only if the adapter deletion succeeds; with no hash bound,
cancel directly. -/
def cancel_download (adapterDeleteOk : Bool) (job : Job)
    (deleteFiles : Bool) : CancelResult :=
  if job.status = "completed" || job.status = "failed" || job.status = "cancelled" then
    ⟨true, job⟩
  else if truthyOpt job.torrentHash then
    if adapterDeleteOk then
      ⟨true, { job with status := "cancelled", errorMessage := some "Cancelled by user" }⟩
    else ⟨false, job⟩
  else
    ⟨true, { job with status := "cancelled", errorMessage := some "Cancelled by user" }⟩

/-! ## Starting a download -/

/-- The `SearchResult` fields read by `start_download`. -/
structure SearchResultRec where
  id : Nat
  title : String
  magnetUrl : Option String
  downloadUrl : Option String
deriving DecidableEq, Repr

/-- External outcomes `start_download` depends on: whether
`ensure_audiobooks_category` raised (with the exception text), and whether
`add_torrent` reported success. -/
structure StartEnv where
  ensureExc : Option String
  addTorrentOk : Bool
deriving DecidableEq, Repr

/-- Observable outcome of `DownloadManager.start_download`: the job (absent
when the search result id is unknown), whether `add_torrent` was invoked, and
whether a monitoring task was started. -/
structure StartOutcome where
  job : Option Job
  submitted : Bool
  monitoring : Bool
deriving DecidableEq, Repr

/-- `DownloadManager.start_download` (lines 25-89): missing search result
returns no job; an exception from the category setup fails the job; a falsy
`magnet_url or download_url` fails the job with "No download URL available"
before any submission; an unsuccessful `add_torrent` fails the job after
submission; otherwise the job enters `downloading` and monitoring starts. -/
def start_download (env : StartEnv) (jobId : Nat)
    (res : Option SearchResultRec) : StartOutcome :=
  match res with
  | none => ⟨none, false, false⟩
  | some r =>
    let job : Job :=
      { id := jobId, searchResultId := r.id, torrentHash := none,
        status := "starting", progress := 0, downloadPath := none,
        createdAt := none, completedAt := none, errorMessage := none }
    match env.ensureExc with
    | some e =>
      ⟨some { job with status := "failed", errorMessage := some e }, false, false⟩
    | none =>
      let url := if truthyOpt r.magnetUrl then r.magnetUrl else r.downloadUrl
      if !truthyOpt url then
        ⟨some { job with status := "failed",
                         errorMessage := some "No download URL available" },
         false, false⟩
      else if !env.addTorrentOk then
        ⟨some { job with status := "failed",
                         errorMessage := some "Failed to add torrent to qBittorrent" },
         true, false⟩
      else
        ⟨some { job with status := "downloading" }, true, true⟩

/-! ## The monitoring loop -/

/-- One full iteration of the monitoring loop, pipeline included: the updated
job and whether the loop breaks.  The completion branch (progress `>= 99.9`)
runs `_process_completed_download` and breaks; a terminal torrent state or the
not-found timeout also break. -/
def monitorTickFull (downloadRoot targetTag searchTitle : String)
    (torrents : List Torrent) (attempts : Nat) (env : ProcessEnv) (now : Rat)
    (job : Job) : Job × Bool :=
  if monitorTerminal job.status then (job, true)
  else
    match findMatchingTorrent targetTag searchTitle (jobCreated job) torrents with
    | some t =>
      let j := tickMatched downloadRoot t job
      if t.progress * 100 ≥ (999 : Rat) / 10 then
        ((process_completed_download env now j).job, true)
      else if badState t.state then (j, true)
      else (j, false)
    | none =>
      if 120 < attempts then
        ({ job with status := "failed",
                    errorMessage := some "Torrent not found in qBittorrent after timeout" },
         true)
      else (job, false)

/-- The `while attempts < max_attempts` loop of `_monitor_download`
(`max_attempts = 1200`): each iteration increments the attempt counter, reads
that tick's torrent list from `stream`, and applies `monitorTickFull`,
stopping when the tick breaks or the attempt budget is exhausted. -/
def monitorRun (downloadRoot targetTag searchTitle : String)
    (stream : Nat → List Torrent) (env : ProcessEnv) (now : Rat)
    (attempts : Nat) (job : Job) : Job :=
  if h : attempts < 1200 then
    let r := monitorTickFull downloadRoot targetTag searchTitle
      (stream (attempts + 1)) (attempts + 1) env now job
    if r.2 then r.1
    else monitorRun downloadRoot targetTag searchTitle stream env now
      (attempts + 1) r.1
  else job
termination_by 1200 - attempts
decreasing_by omega

/-- The task-registry cleanup after the loop (lines 264-265):
`if job_id in self.monitoring_tasks: del self.monitoring_tasks[job_id]`,
with the registry modelled by its key list. -/
def monitorCleanupRegistry (registry : List Nat) (jobId : Nat) : List Nat :=
  if jobId ∈ registry then registry.filter (fun x => x != jobId) else registry

/-! ## Concrete inputs used by counterexamples and witnesses -/

/-- A job mid-download with a bound torrent hash and 50% progress. -/
def jobC4 : Job :=
  ⟨1, 1, some "abc", "downloading", 50, none, some 0, none, none⟩

/-- A snapshot matched by tag whose reported fraction is only 10%. -/
def torrC4 : Torrent :=
  ⟨some "abc", "Foo", "audiobook-manager-1", 1/10, "downloading", 0, none, none⟩

/-- A job mid-download, for the completion-path claim. -/
def jobC3 : Job :=
  ⟨2, 2, some "abc", "downloading", 50, none, some 0, none, none⟩

/-- A finished snapshot that reports a content path differing from the
download-root-joined-name derivation. -/
def torrC3 : Torrent :=
  ⟨some "abc", "Foo", "audiobook-manager-2", 1, "uploading", 0,
   some "/mnt/pool/Foo", some "/mnt/pool"⟩

/-! ## General lemmas about the embedded primitives -/

/-- `pyStrip` is the left strip followed by the structural trailing trim. -/
theorem pyStrip_eq_trimTrailing (p : Char → Bool) (l : List Char) :
    pyStrip p l = trimTrailing p (l.dropWhile p) := by
  have h : ∀ m : List Char, (m.reverse.dropWhile p).reverse = trimTrailing p m := by
    intro m
    induction m with
    | nil => rfl
    | cons c cs ih =>
      by_cases h0 : (cs.reverse.dropWhile p).isEmpty
      · have hnil : cs.reverse.dropWhile p = [] := by
          simpa [List.isEmpty_iff] using h0
        have hih : trimTrailing p cs = [] := by rw [← ih, hnil]; rfl
        rw [List.reverse_cons, List.dropWhile_append, if_pos h0, trimTrailing, hih]
        cases hpc : p c <;> simp [List.dropWhile, hpc]
      · have hne : cs.reverse.dropWhile p ≠ [] := by
          simpa [List.isEmpty_iff] using h0
        have hihne : trimTrailing p cs ≠ [] := by
          rw [← ih]
          simpa using hne
        rw [List.reverse_cons, List.dropWhile_append, if_neg h0, List.reverse_append, ih]
        cases hc : trimTrailing p cs with
        | nil => exact absurd hc hihne
        | cons x xs => simp [trimTrailing, hc]
  unfold pyStrip
  exact h (l.dropWhile p)

/-- A `find?` over a list holding exactly one element satisfying `p`
returns that element. -/
theorem find_unique {α : Type} (p : α → Bool) (l : List α) (e : α)
    (he : e ∈ l) (hp : p e = true)
    (hu : ∀ x, x ∈ l → p x = true → x = e) : l.find? p = some e := by
  induction l with
  | nil => cases he
  | cons a t ih =>
    by_cases h : p a = true
    · have : a = e := hu a (List.mem_cons_self a t) h
      subst this
      simp [List.find?_cons_of_pos, h]
    · have h' : ¬ p a := by simpa using h
      rw [List.find?_cons_of_neg _ h']
      have he' : e ∈ t := by
        rcases List.mem_cons.mp he with h1 | h1
        · subst h1; exact absurd hp h
        · exact h1
      exact ih he' (fun x hx hpx => hu x (List.mem_cons_of_mem _ hx) hpx)

/-! ## Claim theorems: file organizer and filename heuristic -/

/-- C9: the filename metadata heuristic maps the four specified inputs exactly
as the spec's scenario table states. -/
theorem C9_filename_heuristic :
    extract_metadata_from_filename "Mistborn by Brandon Sanderson.m4b" =
      ⟨"Brandon Sanderson", "Mistborn"⟩ ∧
    extract_metadata_from_filename "Mistborn [Brandon Sanderson].m4b" =
      ⟨"Brandon Sanderson", "Mistborn"⟩ ∧
    extract_metadata_from_filename "Brandon Sanderson - Mistborn.flac" =
      ⟨"Brandon Sanderson", "Mistborn"⟩ ∧
    extract_metadata_from_filename "RandomName.mp3" =
      ⟨"Unknown Author", "RandomName"⟩ := by decide

/-- C5 counterexample: the sanitizer does not REMOVE the reserved characters;
on `"a<b"` it produces `"a_b"`, not the `"ab"` the claim's removal reading
dictates. -/
theorem C5_counterexample :
    make_filesystem_safe "a<b" = "a_b" ∧
    sanitizeRemoveClaim "a<b" = "ab" ∧
    make_filesystem_safe "a<b" ≠ sanitizeRemoveClaim "a<b" := by decide

/-- C5 amended: the sanitizer REPLACES each character of `<>:"/\\|?*` with an
underscore, trims leading and trailing dots and spaces, and caps the result at
100 code units. -/
theorem C5_sanitizer_amended (name : String) :
    make_filesystem_safe name =
      String.mk ((trimTrailing (fun c => c = '.' || c = ' ')
        ((reSubChars badChar '_' name.data).dropWhile
          (fun c => c = '.' || c = ' '))).take 100) ∧
    (make_filesystem_safe name).data.length ≤ 100 := by
  constructor
  · show String.mk ((pyStrip (fun c => c = '.' || c = ' ')
        (reSubChars badChar '_' name.data)).take 100) = _
    rw [pyStrip_eq_trimTrailing]
  · show (String.mk ((pyStrip (fun c => c = '.' || c = ' ')
        (reSubChars badChar '_' name.data)).take 100)).data.length ≤ 100
    simp [List.length_take]

/-! ## Claim theorems: monitoring tick -/

/-- C4 counterexample: a monitoring tick whose matched snapshot reports a
lower fraction strictly decreases the job's progress while it is
`downloading`. -/
theorem C4_counterexample :
    jobC4.status = "downloading" ∧ jobC4.progress = 50 ∧
    (monitorTick "/downloads" "audiobook-manager-1" "Foo" [torrC4] 5 jobC4).status
      = "downloading" ∧
    (monitorTick "/downloads" "audiobook-manager-1" "Foo" [torrC4] 5 jobC4).progress
      = 10 ∧
    (monitorTick "/downloads" "audiobook-manager-1" "Foo" [torrC4] 5 jobC4).progress
      < jobC4.progress := by
  have hfind : findMatchingTorrent "audiobook-manager-1" "Foo" (jobCreated jobC4)
      [torrC4] = some torrC4 := rfl
  have hprog : torrC4.progress * 100 = (10 : Rat) := by
    show (1 / 10 : Rat) * 100 = 10
    norm_num
  have hnc : ¬ (torrC4.progress * 100 ≥ (999 : Rat) / 10) := by
    rw [hprog]; norm_num
  have hbad : ¬ (badState torrC4.state = true) := by decide
  have htick : monitorTick "/downloads" "audiobook-manager-1" "Foo" [torrC4] 5 jobC4
      = { bindHash torrC4 jobC4 with
            progress := torrC4.progress * 100, status := "downloading" } := by
    simp only [monitorTick, hfind, tickMatched, if_neg hnc, if_neg hbad]
    rfl
  refine ⟨rfl, rfl, ?_, ?_, ?_⟩
  · rw [htick]
  · rw [htick]; exact hprog
  · rw [htick]
    show torrC4.progress * 100 < jobC4.progress
    rw [hprog]
    show (10 : Rat) < 50
    norm_num

/-- C4 amended: a monitoring tick with a matched transfer overwrites the job's
progress with 100 times the snapshot's reported fraction, irrespective of the
previous value; monotonicity is not enforced. -/
theorem C4_progress_amended (root tag title : String) (ts : List Torrent)
    (att : Nat) (job : Job) (t : Torrent)
    (hterm : monitorTerminal job.status = false)
    (hm : findMatchingTorrent tag title (jobCreated job) ts = some t) :
    (monitorTick root tag title ts att job).progress = t.progress * 100 := by
  simp only [monitorTick, hterm, Bool.false_eq_true, if_false, hm, tickMatched]
  split
  · rfl
  · split <;> rfl

/-- C4 witness. -/
theorem C4_witness :
    (monitorTick "/downloads" "audiobook-manager-1" "Foo" [torrC4] 5 jobC4).progress
      = torrC4.progress * 100 :=
  C4_progress_amended "/downloads" "audiobook-manager-1" "Foo" [torrC4] 5 jobC4
    torrC4 (by decide) rfl

/-- C3 counterexample: on completion the code derives the output path as the
download root joined with the transfer's name even when the snapshot reports a
content path, contradicting the claimed preference for the content path. -/
theorem C3_counterexample :
    (monitorTick "/downloads" "audiobook-manager-2" "Foo" [torrC3] 5 jobC3).downloadPath
      = some "/downloads/Foo" ∧
    (monitorTick "/downloads" "audiobook-manager-2" "Foo" [torrC3] 5 jobC3).status
      = "processing" ∧
    resolveOutputPathClaim "/downloads" torrC3 = "/mnt/pool/Foo" ∧
    (monitorTick "/downloads" "audiobook-manager-2" "Foo" [torrC3] 5 jobC3).downloadPath
      ≠ some (resolveOutputPathClaim "/downloads" torrC3) := by
  have hfind : findMatchingTorrent "audiobook-manager-2" "Foo" (jobCreated jobC3)
      [torrC3] = some torrC3 := rfl
  have hc : torrC3.progress * 100 ≥ (999 : Rat) / 10 := by
    show (1 : Rat) * 100 ≥ (999 : Rat) / 10
    norm_num
  have htick : monitorTick "/downloads" "audiobook-manager-2" "Foo" [torrC3] 5 jobC3
      = { bindHash torrC3 jobC3 with
            progress := torrC3.progress * 100,
            downloadPath := some (pathJoin "/downloads" torrC3.name),
            status := "processing" } := by
    simp only [monitorTick, hfind, tickMatched, if_pos hc]
    rfl
  refine ⟨?_, ?_, rfl, ?_⟩
  · rw [htick]; rfl
  · rw [htick]
  · rw [htick]; decide

/-- C3 amended: when a matched transfer reports progress at least 99.9%, the
tick always resolves the output path as the configured download root joined
with the transfer's reported name — the adapter-reported content path is never
consulted — and enters the completion pipeline in state `processing`. -/
theorem C3_output_path_amended (root tag title : String) (ts : List Torrent)
    (att : Nat) (job : Job) (t : Torrent)
    (hterm : monitorTerminal job.status = false)
    (hm : findMatchingTorrent tag title (jobCreated job) ts = some t)
    (hp : t.progress * 100 ≥ (999 : Rat) / 10) :
    (monitorTick root tag title ts att job).downloadPath
      = some (pathJoin root t.name) ∧
    (monitorTick root tag title ts att job).status = "processing" := by
  simp only [monitorTick, hterm, Bool.false_eq_true, if_false, hm, tickMatched,
    if_pos hp]
  simp

/-- C3 witness. -/
theorem C3_witness :
    (monitorTick "/downloads" "audiobook-manager-2" "Foo" [torrC3] 5 jobC3).downloadPath
      = some (pathJoin "/downloads" torrC3.name) ∧
    (monitorTick "/downloads" "audiobook-manager-2" "Foo" [torrC3] 5 jobC3).status
      = "processing" :=
  C3_output_path_amended "/downloads" "audiobook-manager-2" "Foo" [torrC3] 5 jobC3
    torrC3 (by decide) rfl
    (by show (1 : Rat) * 100 ≥ (999 : Rat) / 10; norm_num)

/-! ## Claim theorems: transfer-identifier binding and matcher ordering -/

/-- A job with a bound non-empty transfer identifier. -/
def jobC6 : Job :=
  ⟨4, 4, some "deadbeef", "downloading", 20, none, some 0, none, none⟩

/-- A job that has not yet been associated with a transfer. -/
def jobC6b : Job :=
  ⟨5, 5, none, "downloading", 0, none, some 0, none, none⟩

/-- A snapshot carrying the tag of job 5. -/
def torrC6 : Torrent :=
  ⟨some "cafe", "Bar", "audiobook-manager-5", 0, "downloading", 0, none, none⟩

/-- An environment whose scans all succeed, over an empty library list. -/
def envC6 : ProcessEnv := ⟨true, [], fun _ => true⟩

/-- C6: the transfer identifier is write-once.  Once the job's hash is a
non-empty string, neither a monitoring tick nor `cancel_download` nor the
completion pipeline changes it; while it is still unset, the first matched
tick binds the snapshot's hash. -/
theorem C6_hash_write_once (root tag title : String) (ts : List Torrent)
    (att : Nat) (ok df : Bool) (env : ProcessEnv) (now : Rat)
    (job : Job) (s : String) (t : Torrent) :
    (job.torrentHash = some s → s ≠ "" →
      (monitorTick root tag title ts att job).torrentHash = some s ∧
      (cancel_download ok job df).job.torrentHash = some s ∧
      (process_completed_download env now job).job.torrentHash = some s) ∧
    (job.torrentHash = none →
      monitorTerminal job.status = false →
      findMatchingTorrent tag title (jobCreated job) ts = some t →
      (monitorTick root tag title ts att job).torrentHash = t.hash) := by
  constructor
  · intro h hs
    have htr : truthyOpt job.torrentHash = true := by
      rw [h]; simpa [truthyOpt] using hs
    refine ⟨?_, ?_, ?_⟩
    · unfold monitorTick
      split
      · exact h
      · cases hfm : findMatchingTorrent tag title (jobCreated job) ts with
        | none =>
          simp only [hfm]
          split <;> simp [h]
        | some t' =>
          have hbind : bindHash t' job = job := by
            unfold bindHash; rw [if_pos htr]
          simp [hfm, tickMatched, hbind, h, apply_ite Job.torrentHash]
    · unfold cancel_download
      by_cases hc : (job.status = "completed" || job.status = "failed" ||
          job.status = "cancelled") = true
      · rw [if_pos hc]; exact h
      · rw [if_neg hc, if_pos htr]
        cases ok
        · rw [if_neg (by simp)]; exact h
        · rw [if_pos rfl]; exact h
    · cases henv : env.organizeOk <;> cases hlib : env.libraries.isEmpty <;>
        simp [process_completed_download, henv, hlib, h]
  · intro h hterm hm
    have htr : truthyOpt job.torrentHash = false := by rw [h]; rfl
    simp [monitorTick, hterm, hm, tickMatched, bindHash, htr,
      apply_ite Job.torrentHash]

/-- C6 witness. -/
theorem C6_witness :
    ((monitorTick "/downloads" "audiobook-manager-4" "Bar" [torrC6] 3 jobC6).torrentHash
        = some "deadbeef" ∧
      (cancel_download true jobC6 false).job.torrentHash = some "deadbeef" ∧
      (process_completed_download envC6 9 jobC6).job.torrentHash = some "deadbeef") ∧
    (monitorTick "/downloads" "audiobook-manager-5" "Bar" [torrC6] 3 jobC6b).torrentHash
      = torrC6.hash :=
  ⟨(C6_hash_write_once "/downloads" "audiobook-manager-4" "Bar" [torrC6] 3 true false
      envC6 9 jobC6 "deadbeef" torrC6).1 rfl (by decide),
   (C6_hash_write_once "/downloads" "audiobook-manager-5" "Bar" [torrC6] 3 true false
      envC6 9 jobC6b "deadbeef" torrC6).2 rfl rfl rfl⟩

/-- A snapshot whose tags string contains `job-1` only as a substring of the
unrelated tag `job-12`. -/
def torrC7a : Torrent :=
  ⟨some "h1", "Unrelated Name", "job-12", 0, "downloading", 0, none, none⟩

/-- A snapshot genuinely tagged `job-1`. -/
def torrC7b : Torrent :=
  ⟨some "h2", "Also Unrelated", "job-1", 0, "downloading", 5, none, none⟩

/-- An untagged snapshot qualifying only under the fuzzy fallback. -/
def torrC7c : Torrent :=
  ⟨some "h3", "The Mistborn Saga", "", 0, "downloading", 10, none, none⟩

/-- C7 counterexample: with tag containment read as tag-set membership (the
claim's wording), the entry whose tag SET contains `job-1` is NOT selected:
the code's substring test first hits the entry tagged `job-12`. -/
theorem C7_counterexample :
    tagSetContains torrC7b.tags "job-1" = true ∧
    tagSetContains torrC7a.tags "job-1" = false ∧
    findMatchingTorrent "job-1" "Mistborn" 0 [torrC7a, torrC7b] = some torrC7a ∧
    torrC7a ≠ torrC7b := by
  refine ⟨by decide, by decide, rfl, by decide⟩

/-- C7 amended: strategy 1 selects the entry whose tags STRING contains the
job tag as a substring; when exactly one entry passes that test it is selected
regardless of position and of any fuzzy-qualifying entries; when no entry
passes it, a candidate is selected only if its lowercased name contains the
lowercased expected title and its added timestamp is within 300 seconds of the
job's creation time. -/
theorem C7_matcher_amended (tag title : String) (cr : Rat) (ts : List Torrent)
    (e m : Torrent) :
    (e ∈ ts → strContains e.tags tag = true →
      (∀ x, x ∈ ts → strContains x.tags tag = true → x = e) →
      findMatchingTorrent tag title cr ts = some e) ∧
    ((∀ x, x ∈ ts → strContains x.tags tag = false) →
      findMatchingTorrent tag title cr ts = some m →
      strContains (lowerStr m.name) (lowerStr title) = true ∧
      |m.addedOn - cr| < (300 : Rat)) := by
  constructor
  · intro he hp hu
    unfold findMatchingTorrent
    rw [find_unique (fun t => strContains t.tags tag) ts e he hp hu]
  · intro hall hm
    unfold findMatchingTorrent at hm
    have hnone : ts.find? (fun t => strContains t.tags tag) = none := by
      rw [List.find?_eq_none]
      intro x hx
      simp [hall x hx]
    rw [hnone] at hm
    have hfz := List.find?_some hm
    simpa [fuzzyPred, Bool.and_eq_true, decide_eq_true_eq] using hfz

/-- C7 witness. -/
theorem C7_witness :
    findMatchingTorrent "job-1" "Mistborn" 0 [torrC7b] = some torrC7b ∧
    (strContains (lowerStr torrC7c.name) (lowerStr "Mistborn") = true ∧
      |torrC7c.addedOn - (0 : Rat)| < 300) := by
  have hfz : fuzzyPred "Mistborn" 0 torrC7c = true := by
    unfold fuzzyPred
    rw [Bool.and_eq_true]
    refine ⟨by decide, ?_⟩
    rw [decide_eq_true_eq]
    show |(10 : Rat) - 0| < 300
    norm_num
  have hm : findMatchingTorrent "job-1" "Mistborn" 0 [torrC7c] = some torrC7c := by
    unfold findMatchingTorrent
    rw [show List.find? (fun t => strContains t.tags "job-1") [torrC7c] = none from rfl]
    exact List.find?_cons_of_pos _ hfz
  exact ⟨(C7_matcher_amended "job-1" "Mistborn" 0 [torrC7b] torrC7b torrC7b).1
      (by simp) (by decide)
      (fun x hx _ => by simpa using hx),
    (C7_matcher_amended "job-1" "Mistborn" 0 [torrC7c] torrC7c torrC7c).2
      (fun x hx => by rw [List.mem_singleton.mp hx]; decide) hm⟩

/-! ## Claim theorems: cancellation -/

/-- A job in the terminal partial-success state with a bound transfer. -/
def jobC2 : Job :=
  ⟨6, 6, some "abc", "completed_with_warning", 100, some "/downloads/X", some 0,
   none, some "warn"⟩

/-- A cleanly completed job. -/
def jobC2w : Job :=
  ⟨7, 7, some "abc", "completed", 100, none, some 0, some 50, none⟩

/-- C2 counterexample: `completed_with_warning` is a terminal state per the
spec, yet a successful cancel on such a job rewrites its status to
`cancelled` instead of leaving it unchanged. -/
theorem C2_counterexample :
    jobC2.status = "completed_with_warning" ∧
    (cancel_download true jobC2 false).success = true ∧
    (cancel_download true jobC2 false).job.status = "cancelled" ∧
    (cancel_download true jobC2 false).job.status ≠ jobC2.status := by
  refine ⟨rfl, rfl, rfl, by decide⟩

/-- C2 amended: for jobs whose status is `completed`, `failed` or `cancelled`
(the set the code actually treats as terminal — `completed_with_warning` is
not in it), cancel succeeds and leaves the job unchanged; and whenever a first
cancel reports success, a second cancel succeeds and changes nothing. -/
theorem C2_cancel_amended (job : Job) (ok1 df1 ok2 df2 : Bool) :
    (job.status = "completed" ∨ job.status = "failed" ∨ job.status = "cancelled" →
      cancel_download ok1 job df1 = ⟨true, job⟩) ∧
    ((cancel_download ok1 job df1).success = true →
      cancel_download ok2 (cancel_download ok1 job df1).job df2 =
        ⟨true, (cancel_download ok1 job df1).job⟩) := by
  have hTermRun : ∀ (ok df : Bool),
      (job.status = "completed" || job.status = "failed" ||
        job.status = "cancelled") = true →
      cancel_download ok job df = ⟨true, job⟩ := by
    intro ok df h
    unfold cancel_download
    rw [if_pos h]
  constructor
  · intro h
    apply hTermRun
    rcases h with h | h | h <;> simp [h]
  · intro hs
    by_cases h1 : (job.status = "completed" || job.status = "failed" ||
        job.status = "cancelled") = true
    · rw [hTermRun ok1 df1 h1]
      exact hTermRun ok2 df2 h1
    · have hCancelled : ∀ (ok df : Bool),
          cancel_download ok
            { job with status := "cancelled",
                       errorMessage := some "Cancelled by user" } df =
            ⟨true, { job with status := "cancelled",
                              errorMessage := some "Cancelled by user" }⟩ := by
        intro ok df
        unfold cancel_download
        rw [if_pos (by simp)]
      by_cases h2 : truthyOpt job.torrentHash = true
      · by_cases h3 : ok1 = true
        · have e1 : cancel_download ok1 job df1 =
              ⟨true, { job with status := "cancelled",
                                errorMessage := some "Cancelled by user" }⟩ := by
            unfold cancel_download
            rw [if_neg h1, if_pos h2, if_pos h3]
          rw [e1]
          exact hCancelled ok2 df2
        · have e1 : cancel_download ok1 job df1 = ⟨false, job⟩ := by
            unfold cancel_download
            rw [if_neg h1, if_pos h2, if_neg h3]
          rw [e1] at hs
          exact absurd hs (by simp)
      · have e1 : cancel_download ok1 job df1 =
            ⟨true, { job with status := "cancelled",
                              errorMessage := some "Cancelled by user" }⟩ := by
          unfold cancel_download
          rw [if_neg h1, if_neg h2]
        rw [e1]
        exact hCancelled ok2 df2

/-- C2 witness. -/
theorem C2_witness :
    cancel_download true jobC2w false = ⟨true, jobC2w⟩ ∧
    cancel_download false (cancel_download true jobC2w false).job true =
      ⟨true, (cancel_download true jobC2w false).job⟩ :=
  ⟨(C2_cancel_amended jobC2w true false false true).1 (Or.inl rfl),
   (C2_cancel_amended jobC2w true false false true).2 rfl⟩

/-! ## Claim theorems: start, completion pipeline, timeout -/

/-- C10: when the referenced search result exists but carries neither a magnet
URL nor a download URL (Python-falsy), the created job fails directly with
"No download URL available", nothing is submitted to the transfer client, and
no monitoring task is started. -/
theorem C10_no_url (env : StartEnv) (jobId : Nat) (r : SearchResultRec)
    (hens : env.ensureExc = none)
    (hm : truthyOpt r.magnetUrl = false) (hd : truthyOpt r.downloadUrl = false) :
    start_download env jobId (some r) =
      ⟨some { id := jobId, searchResultId := r.id, torrentHash := none,
              status := "failed", progress := 0, downloadPath := none,
              createdAt := none, completedAt := none,
              errorMessage := some "No download URL available" },
       false, false⟩ := by
  simp [start_download, hens, hm, hd]

/-- A search result record with neither resource reference populated. -/
def srNoUrl : SearchResultRec := ⟨5, "Some Title", none, none⟩

/-- C10 witness. -/
theorem C10_witness :
    start_download ⟨none, true⟩ 3 (some srNoUrl) =
      ⟨some { id := 3, searchResultId := srNoUrl.id, torrentHash := none,
              status := "failed", progress := 0, downloadPath := none,
              createdAt := none, completedAt := none,
              errorMessage := some "No download URL available" },
       false, false⟩ :=
  C10_no_url ⟨none, true⟩ 3 srNoUrl rfl rfl rfl

/-- A job entering the completion pipeline. -/
def jobC1 : Job :=
  ⟨8, 8, some "abc", "processing", 100, some "/downloads/Foo", some 0, none, none⟩

/-- A pipeline environment with one library whose scan call fails. -/
def envC1 : ProcessEnv := ⟨true, [⟨"lib1", some "Main"⟩], fun _ => false⟩

/-- A pipeline environment with one library whose scan call succeeds. -/
def envC1w : ProcessEnv := ⟨true, [⟨"lib1", some "Main"⟩], fun _ => true⟩

/-- C1 counterexample: with one library reachable but every scan call failing,
the claim dictates `completed_with_warning`, yet the code marks the job
`completed`; moreover the guarded cleanup of the transfer-location files is
never invoked. -/
theorem C1_counterexample :
    (process_completed_download envC1 777 jobC1).job.status = "completed" ∧
    completionStatusClaim envC1.libraries envC1.scanOk = "completed_with_warning" ∧
    (process_completed_download envC1 777 jobC1).cleanupCalled = false ∧
    (process_completed_download envC1 777 jobC1).job.status ≠
      completionStatusClaim envC1.libraries envC1.scanOk := by
  refine ⟨rfl, rfl, rfl, by decide⟩

/-- C1 amended: after the File Organizer succeeds, the job transitions to
`completed` (with completion timestamp) exactly when the library list is
nonempty — individual scan outcomes are ignored — and the transfer-location
files are never deleted; with no libraries it transitions to
`completed_with_warning` with the explanatory message, files likewise kept. -/
theorem C1_pipeline_amended (env : ProcessEnv) (now : Rat) (job : Job)
    (horg : env.organizeOk = true) :
    (env.libraries.isEmpty = false →
      (process_completed_download env now job).job.status = "completed" ∧
      (process_completed_download env now job).job.completedAt = some now ∧
      (process_completed_download env now job).cleanupCalled = false) ∧
    (env.libraries.isEmpty = true →
      (process_completed_download env now job).job.status = "completed_with_warning" ∧
      (process_completed_download env now job).job.errorMessage =
        some "Download completed but could not trigger Audiobookshelf scan" ∧
      (process_completed_download env now job).cleanupCalled = false) := by
  constructor <;> intro h <;> simp [process_completed_download, horg, h]

/-- C1 witness. -/
theorem C1_witness :
    (process_completed_download envC1w 777 jobC1).job.status = "completed" ∧
    (process_completed_download envC1w 777 jobC1).job.completedAt = some 777 ∧
    (process_completed_download envC1w 777 jobC1).cleanupCalled = false :=
  (C1_pipeline_amended envC1w 777 jobC1 rfl).1 rfl

/-- While no tick ever matches, every loop iteration that starts at attempt
counter `a = 120 - d` ends in the timeout failure state. -/
theorem monitorRun_noMatch_aux (root tag title : String)
    (stream : Nat → List Torrent) (env : ProcessEnv) (now : Rat) (job : Job)
    (hstat : job.status = "downloading")
    (hnm : ∀ n, findMatchingTorrent tag title (jobCreated job) (stream n) = none) :
    ∀ d a, a + d = 120 →
      monitorRun root tag title stream env now a job =
        { job with status := "failed",
                   errorMessage := some "Torrent not found in qBittorrent after timeout" } := by
  have hterm : monitorTerminal job.status = false := by rw [hstat]; rfl
  intro d
  induction d with
  | zero =>
    intro a ha
    have h120 : a = 120 := by omega
    subst h120
    rw [monitorRun]
    rw [dif_pos (by norm_num : (120 : Nat) < 1200)]
    simp only [monitorTickFull, hterm, Bool.false_eq_true, if_false, hnm 121]
    rw [if_pos (by omega : 120 < 120 + 1)]
    rfl
  | succ d ih =>
    intro a ha
    have h1 : a < 1200 := by omega
    rw [monitorRun]
    rw [dif_pos h1]
    simp only [monitorTickFull, hterm, Bool.false_eq_true, if_false, hnm (a + 1)]
    rw [if_neg (by omega : ¬ 120 < a + 1)]
    exact ih (a + 1) (by omega)

/-- C8: with no matching transfer ever appearing, a monitoring run started at
attempt 0 on a `downloading` job ends `failed` with the timeout message (which
contains "not found"); the registry cleanup leaves no task registered for the
job id; and the 120th attempt itself does not yet fail the job. -/
theorem C8_not_found_timeout (root tag title : String)
    (stream : Nat → List Torrent) (env : ProcessEnv) (now : Rat)
    (registry : List Nat) (jobId : Nat) (job : Job)
    (hstat : job.status = "downloading")
    (hnm : ∀ n, findMatchingTorrent tag title (jobCreated job) (stream n) = none) :
    monitorRun root tag title stream env now 0 job =
      { job with status := "failed",
                 errorMessage := some "Torrent not found in qBittorrent after timeout" } ∧
    strContains "Torrent not found in qBittorrent after timeout" "not found" = true ∧
    jobId ∉ monitorCleanupRegistry registry jobId ∧
    monitorTickFull root tag title (stream 120) 120 env now job = (job, false) := by
  refine ⟨monitorRun_noMatch_aux root tag title stream env now job hstat hnm 120 0 rfl,
    by decide, ?_, ?_⟩
  · unfold monitorCleanupRegistry
    by_cases hjm : jobId ∈ registry
    · rw [if_pos hjm]
      simp [List.mem_filter]
    · rw [if_neg hjm]
      exact hjm
  · have hterm : monitorTerminal job.status = false := by rw [hstat]; rfl
    simp only [monitorTickFull, hterm, Bool.false_eq_true, if_false, hnm 120]
    rw [if_neg (by omega : ¬ 120 < 120)]

/-- A fresh downloading job that never gets matched. -/
def jobC8 : Job := ⟨9, 9, none, "downloading", 0, none, some 0, none, none⟩

/-- A pipeline environment for the timeout witness. -/
def envC8 : ProcessEnv := ⟨true, [], fun _ => true⟩

/-- C8 witness. -/
theorem C8_witness :
    monitorRun "/downloads" "audiobook-manager-9" "Foo" (fun _ => []) envC8 0 0 jobC8 =
      { jobC8 with status := "failed",
                   errorMessage := some "Torrent not found in qBittorrent after timeout" } ∧
    strContains "Torrent not found in qBittorrent after timeout" "not found" = true ∧
    9 ∉ monitorCleanupRegistry [9] 9 ∧
    monitorTickFull "/downloads" "audiobook-manager-9" "Foo" ((fun _ => []) 120) 120
      envC8 0 jobC8 = (jobC8, false) :=
  C8_not_found_timeout "/downloads" "audiobook-manager-9" "Foo" (fun _ => []) envC8 0
    [9] 9 jobC8 rfl (fun _ => rfl)

/-- C5 witness. -/
theorem C5_witness :
    make_filesystem_safe "a<b." =
      String.mk ((trimTrailing (fun c => c = '.' || c = ' ')
        ((reSubChars badChar '_' "a<b.".data).dropWhile
          (fun c => c = '.' || c = ' '))).take 100) ∧
    (make_filesystem_safe "a<b.").data.length ≤ 100 :=
  C5_sanitizer_amended "a<b."
